import Mathlib

/-!
Verification of the selection-to-visualization rendering engine of the
inflation-inequality dashboard (`src/app.py`, callback `update_selected_data`).

The embedding models a pandas DataFrame column-major (each column is a name
paired with its list of cells), the per-country slicing/pruning pipeline,
the three plotly figure builders, the device-class layout adaptation, the
title-ordinal insertion, and the final composition of the output list.
Fallible pandas operations (column lookup, `drop`) return `Except`, matching
the KeyError behaviour of the source.
-/

namespace InflationApp

/-- A cell of a dataset: missing (NaN), a string, or a number. -/
inductive Cell where
  | na : Cell
  | str : String → Cell
  | num : Int → Cell
deriving DecidableEq, Repr

/-- Test used by `dropna`: `isNa v = true` exactly when the cell is missing. -/
def isNa : Cell → Bool
  | Cell.na => true
  | _ => false

/-- A pandas DataFrame, column-major: each entry is a column name with its values. -/
structure DataFrame where
  cols : List (String × List Cell)
deriving DecidableEq, Repr

/-- The list of column names, in order. -/
def DataFrame.colNames (df : DataFrame) : List String :=
  df.cols.map Prod.fst

/-- Look up a column by name (`df[name]`); `none` when the label is absent. -/
def DataFrame.getCol? (df : DataFrame) (nm : String) : Option (List Cell) :=
  (df.cols.find? (fun p => p.1 == nm)).map Prod.snd

/-- Column access that raises like pandas `df[name]` (KeyError on a missing label). -/
def DataFrame.getColE (df : DataFrame) (nm : String) : Except String (List Cell) :=
  match df.getCol? nm with
  | some vs => Except.ok vs
  | none => Except.error ("KeyError: " ++ nm)

/-- Keep the entries of `vs` whose position is marked `true` in `mask`
(boolean-mask row selection, applied per column). -/
def maskFilter (mask : List Bool) (vs : List Cell) : List Cell :=
  (mask.zip vs).filterMap (fun bv => if bv.1 then some bv.2 else none)

/-- Row selection of the source (pandas loc with a boolean mask on the
`Country` column): keep the rows whose `Country` cell is `c`.  Raises
(KeyError) when there is no `Country` column. -/
def DataFrame.filterCountry (df : DataFrame) (c : String) : Except String DataFrame :=
  match df.getCol? "Country" with
  | none => Except.error "KeyError: Country"
  | some country =>
      let mask := country.map (fun v => v == Cell.str c)
      Except.ok ⟨df.cols.map (fun p => (p.1, maskFilter mask p.2))⟩

/-- Pandas drop of a single labelled column: removes it, raising (KeyError)
when the label is absent. -/
def DataFrame.dropColumn (df : DataFrame) (nm : String) : Except String DataFrame :=
  if nm ∈ df.colNames then Except.ok ⟨df.cols.filter (fun p => p.1 != nm)⟩
  else Except.error ("KeyError: " ++ nm)

/-- Pandas drop of a list of labelled columns: removes each in turn, raising
(KeyError) when any label is absent. -/
def DataFrame.dropColumns : DataFrame → List String → Except String DataFrame
  | df, [] => Except.ok df
  | df, nm :: rest =>
      match df.dropColumn nm with
      | Except.error e => Except.error e
      | Except.ok d => d.dropColumns rest

/-- Pandas dropna on columns (axis 1) with its default any-missing test: a
column is kept exactly when none of its values is missing. -/
def DataFrame.dropna (df : DataFrame) : DataFrame :=
  ⟨df.cols.filter (fun p => p.2.all (fun v => !isNa v))⟩

/-- The `country_dict` mapping of the source, as an association list. -/
def countryPairs : List (String × String) :=
  [("AT", "Austria"), ("BE", "Belgium"), ("BG", "Bulgaria"), ("CY", "Cyprus"),
   ("CZ", "Czechia"), ("DE", "Germany"), ("DK", "Denmark"), ("EE", "Estonia "),
   ("EL", "Greece"), ("ES", "Spain"), ("FI", "Finland"), ("FR", "France"),
   ("HR", "Croatia"), ("HU", "Hungary"), ("IE", "Ireland"), ("IT", "Italy"),
   ("LT", "Lithuania"), ("LU", "Luxembourg"), ("LV", "Latvia"), ("MT", "Malta"),
   ("NL", "Netherlands"), ("PL", "Poland"), ("PT", "Portugal"), ("RO", "Romania"),
   ("SE", "Sweden"), ("SI", "Slovenia"), ("SK", "Slovakia")]

/-- Lookup in `country_dict` as a partial function. -/
def country_dict (c : String) : Option String :=
  (countryPairs.find? (fun p => p.1 == c)).map Prod.snd

/-- Lookup in `country_dict` with the KeyError raised on an unknown code. -/
def lookupCountry (c : String) : Except String String :=
  match country_dict c with
  | some n => Except.ok n
  | none => Except.error ("KeyError: " ++ c)

/-- The quantile-label derivation of the source: quartile if the selected
country is BE, else quintile. -/
def resolveQuantile (c : String) : String :=
  if c = "BE" then "quartile" else "quintile"

/-- The figure selected in the figure dropdown. -/
inductive FigId where
  | fig1 : FigId
  | fig2 : FigId
  | fig3 : FigId
deriving DecidableEq, Repr

/-- One plotly trace: display name, x data, y data, hover template,
line dash style and explicit line color (when set). -/
structure Series where
  name : String
  x : List Cell
  y : List Cell
  hover : String
  dash : Option String
  color : Option String
deriving DecidableEq, Repr

/-- Axis configuration: title, tick interval (`dtick`) and zero-line flag. -/
structure Axis where
  title : Option String := none
  dtick : Option String := none
  zeroline : Bool := false
deriving DecidableEq, Repr

/-- Plot margins (top, bottom, left, right). -/
structure Margins where
  t : Nat
  b : Nat
  l : Nat
  r : Nat
deriving DecidableEq, Repr

/-- Legend configuration: orientation and vertical anchor when explicitly set
(`none` means the plotly default is in force). -/
structure Legend where
  orientation : Option String := none
  y : Option String := none
deriving DecidableEq, Repr

/-- A chart descriptor: ordered traces plus axis, margin and legend configuration. -/
structure ChartDescriptor where
  series : List Series
  xaxis : Axis
  yaxis : Axis
  margins : Margins
  legend : Legend
  showlegend : Bool
deriving DecidableEq, Repr

/-- The display text plotly uses for a category cell. -/
def cellText : Cell → String
  | Cell.str s => s
  | Cell.num n => toString n
  | Cell.na => "nan"

/-- The distinct values of a column in order of first appearance
(the grouping order `plotly.express` uses for `color=`). -/
def firstUniques (l : List Cell) : List Cell :=
  l.foldl (fun acc x => if x ∈ acc then acc else acc ++ [x]) []

/-- Hover template of the two `px.line` traces of figure 1. -/
def fig1MainHover : String :=
  "<b>%\x7bcustomdata[1]\x7d</b><br>Date: %\x7bx\x7d<br>Inflation rate: %\x7by:.2f\x7d<extra></extra>"

/-- Hover template of the added `Total` trace of figure 1. -/
def fig1TotalHover : String :=
  "<b>Total</b><br>Date: %\x7bx\x7d<br>Inflation rate: %\x7by:.2f\x7d<extra></extra>"

/-- Hover template of the added `HICP` trace of figure 1. -/
def fig1HicpHover : String :=
  "<b>HICP</b><br>Date: %\x7bx\x7d<br>Inflation rate: %\x7by:.2f\x7d<extra></extra>"

/-- Hover template of the stacked-bar traces of figure 2. -/
def fig2BarHover : String :=
  "<b>%\x7bcustomdata[1]\x7d</b><br>Date: %\x7bx\x7d<br>Effect on inflation inequality: %\x7by:.2f\x7d<extra></extra>"

/-- Hover template of the figure-2 overlay in the quintile branch. -/
def fig2QuintHover : String :=
  "<b>Difference between inflation rates of bottom and top quintiles</b><br>%\x7bx\x7d: %\x7by:.2f\x7d<extra></extra>"

/-- Hover template of the figure-2 overlay in the quartile branch. -/
def fig2QuartHover : String :=
  "<b>Difference between inflation rates of bottom and top quartiles</b><br>%\x7bx\x7d: %\x7by:.2f\x7d<extra></extra>"

/-- Hover template of the figure-3 point traces. -/
def fig3Hover : String :=
  "<b>%\x7bcustomdata[1]\x7d</b><br>Difference in consumption share: %\x7bx:.2f\x7d<br>Average inflation in 2023: %\x7by:.2f\x7d<extra></extra>"

/-- Plotly default margins, in force before `update_layout` touches them. -/
def defaultMargins : Margins := { t := 100, b := 80, l := 80, r := 80 }

/-- Figure-1 builder (`px.line` on top/bottom quantile plus the added `Total`
and `HICP` traces, with the axis updates applied by the source). -/
def buildFig1 (d : DataFrame) (q : String) : Except String ChartDescriptor :=
  match d.getColE "Date" with
  | Except.error e => Except.error e
  | Except.ok dates =>
  match d.getColE ("Top " ++ q) with
  | Except.error e => Except.error e
  | Except.ok top =>
  match d.getColE ("Bottom " ++ q) with
  | Except.error e => Except.error e
  | Except.ok bottom =>
  match d.getColE "Total" with
  | Except.error e => Except.error e
  | Except.ok total =>
  match d.getColE "HICP" with
  | Except.error e => Except.error e
  | Except.ok hicp =>
    Except.ok {
      series := [
        { name := "Top " ++ q, x := dates, y := top,
          hover := fig1MainHover, dash := none, color := none },
        { name := "Bottom " ++ q, x := dates, y := bottom,
          hover := fig1MainHover, dash := none, color := none },
        { name := "Total", x := dates, y := total,
          hover := fig1TotalHover, dash := some "dash", color := some "#696969" },
        { name := "HICP", x := dates, y := hicp,
          hover := fig1HicpHover, dash := some "dot", color := some "#A9A9A9" }],
      xaxis := { title := none, dtick := some "M3", zeroline := false },
      yaxis := { title := some "Inflation rate (yoy)", dtick := none, zeroline := false },
      margins := defaultMargins,
      legend := { orientation := none, y := none },
      showlegend := true }

/-- Figure-2 builder (`px.bar` stacked by consumption category plus the
quantile-label-dependent overlay line, with the axis updates of the source). -/
def buildFig2 (d : DataFrame) (q : String) : Except String ChartDescriptor :=
  match d.getColE "Date" with
  | Except.error e => Except.error e
  | Except.ok dates =>
  match d.getColE "Effect on inflation inequality" with
  | Except.error e => Except.error e
  | Except.ok eff =>
  match d.getColE "Consumption category" with
  | Except.error e => Except.error e
  | Except.ok cats =>
    let bars := (firstUniques cats).map (fun cv =>
      { name := cellText cv,
        x := maskFilter (cats.map (fun y => y == cv)) dates,
        y := maskFilter (cats.map (fun y => y == cv)) eff,
        hover := fig2BarHover, dash := none, color := none })
    let overlayE : Except String (List Series) :=
      if q = "quintile" then
        match d.getColE "Difference between inflation rates of bottom and top quantiles" with
        | Except.error e => Except.error e
        | Except.ok diff =>
            Except.ok [{ name := "Difference between inflation rates<br>of bottom and top " ++ q ++ "s",
                         x := dates, y := diff, hover := fig2QuintHover,
                         dash := none, color := some "#000000" }]
      else if q = "quartile" then
        match d.getColE "Difference between inflation rates of bottom and top quantiles" with
        | Except.error e => Except.error e
        | Except.ok diff =>
            Except.ok [{ name := "Difference between inflation rates<br>of bottom and top " ++ q ++ "s",
                         x := dates, y := diff, hover := fig2QuartHover,
                         dash := none, color := some "#000000" }]
      else Except.ok []
    match overlayE with
    | Except.error e => Except.error e
    | Except.ok overlay =>
      Except.ok {
        series := bars ++ overlay,
        xaxis := { title := none, dtick := some "M3", zeroline := false },
        yaxis := { title := none, dtick := none, zeroline := false },
        margins := defaultMargins,
        legend := { orientation := none, y := none },
        showlegend := true }

/-- Figure-3 builder (`px.scatter` colored by main category; both axes keep the
column-name titles and get an explicit zero line). -/
def buildFig3 (d : DataFrame) : Except String ChartDescriptor :=
  match d.getColE "Difference in share of total expenditure" with
  | Except.error e => Except.error e
  | Except.ok xs =>
  match d.getColE "Average inflation in 2023" with
  | Except.error e => Except.error e
  | Except.ok ys =>
  match d.getColE "Main category" with
  | Except.error e => Except.error e
  | Except.ok cats =>
    Except.ok {
      series := (firstUniques cats).map (fun cv =>
        { name := cellText cv,
          x := maskFilter (cats.map (fun y => y == cv)) xs,
          y := maskFilter (cats.map (fun y => y == cv)) ys,
          hover := fig3Hover, dash := none, color := none }),
      xaxis := { title := some "Difference in share of total expenditure",
                 dtick := none, zeroline := true },
      yaxis := { title := some "Average inflation in 2023",
                 dtick := none, zeroline := true },
      margins := defaultMargins,
      legend := { orientation := none, y := none },
      showlegend := true }

/-- The per-country data slice of the source (line 264 and the figure-3 drop):
filter the rows of the figure dataset to the country, drop the `Country`
column, apply `dropna(axis=1)`, and for figure 3 additionally drop the
category identifier and the four oldest-year inflation columns. -/
def selectedSlice (dfs : FigId → DataFrame) (fig : FigId) (c : String) :
    Except String DataFrame :=
  match (dfs fig).filterCountry c with
  | Except.error e => Except.error e
  | Except.ok s0 =>
  match s0.dropColumn "Country" with
  | Except.error e => Except.error e
  | Except.ok s1 =>
    let s2 := s1.dropna
    if fig = FigId.fig3 then
      s2.dropColumns ["COICOP", "Average inflation in 2019", "Average inflation in 2020",
                      "Average inflation in 2021", "Average inflation in 2022"]
    else Except.ok s2

/-- The first eight characters of each canonical title: the figure-number token. -/
def figNumTok : FigId → String
  | FigId.fig1 => "Figure 1"
  | FigId.fig2 => "Figure 2"
  | FigId.fig3 => "Figure 3"

/-- The canonical (single-country) title string of each figure. -/
def canonicalTitle (fig : FigId) (q cname : String) : String :=
  match fig with
  | FigId.fig1 => "Figure 1: Inflation rate for top and bottom " ++ q ++ " - " ++ cname
  | FigId.fig2 => "Figure 2: Expenditure categories driving inflation inequality - " ++ cname
  | FigId.fig3 => "Figure 3: Price growth and difference in importance of consumption categories - " ++ cname

/-- The per-country build up to (title, chart, pruned slice): slice the data,
resolve the quantile label, look up the display name, and run the figure
builder.  Any KeyError along the way propagates. -/
def buildChartTitle (dfs : FigId → DataFrame) (fig : FigId) (c : String) :
    Except String (String × ChartDescriptor × DataFrame) :=
  match selectedSlice dfs fig c with
  | Except.error e => Except.error e
  | Except.ok d =>
  match lookupCountry c with
  | Except.error e => Except.error e
  | Except.ok cname =>
    let q := resolveQuantile c
    match fig with
    | FigId.fig1 =>
      match buildFig1 d q with
      | Except.error e => Except.error e
      | Except.ok ch => Except.ok (canonicalTitle FigId.fig1 q cname, ch, d)
    | FigId.fig2 =>
      match buildFig2 d q with
      | Except.error e => Except.error e
      | Except.ok ch => Except.ok (canonicalTitle FigId.fig2 q cname, ch, d)
    | FigId.fig3 =>
      match buildFig3 d with
      | Except.error e => Except.error e
      | Except.ok ch => Except.ok (canonicalTitle FigId.fig3 q cname, ch, d)

/-- The common `update_layout` of the source: fixed margins and legend
visibility from the legend switch (legend orientation is left untouched). -/
def applyCommonLayout (showLegend : Bool) (ch : ChartDescriptor) : ChartDescriptor :=
  { ch with margins := { t := 20, b := 20, l := 5, r := 40 },
            showlegend := showLegend }

/-- The mobile adaptation of the source: zero side margins and a horizontal
legend below the plot; for figures 1 and 2 additionally a semestral tick
interval and a slightly higher legend anchor.  Identity on desktop. -/
def applyMobileIf (isMobile : Bool) (fig : FigId) (ch : ChartDescriptor) : ChartDescriptor :=
  if isMobile then
    let ch1 := { ch with margins := { ch.margins with l := 0, r := 0 },
                         legend := { ch.legend with orientation := some "h", y := some "-0.25" } }
    if fig ≠ FigId.fig3 then
      { ch1 with xaxis := { ch1.xaxis with dtick := some "M6" },
                 legend := { ch1.legend with y := some "-0.15" } }
    else ch1
  else ch

/-- Python string slicing `t[:8] + letter + t[8:]` on characters. -/
def pySlice8Insert (letter : Char) (t : String) : String :=
  String.mk (t.data.take 8 ++ letter :: t.data.drop 8)

/-- The rendered output unit of one country: title, chart and optional table
(the table, when shown, is the pruned data slice). -/
structure ViewBlock where
  title : String
  chart : ChartDescriptor
  table : Option DataFrame
deriving DecidableEq, Repr

/-- The full per-country build of the source loop body: slice/build, insert the
ordinal letter into the title when more than one country is selected, apply
the common layout and the mobile adaptation, and attach the table when the
table switch is on. -/
def buildForCountry (dfs : FigId → DataFrame) (fig : FigId)
    (showTable showLegend isMobile : Bool) (nSel i : Nat) (c : String) :
    Except String ViewBlock :=
  match buildChartTitle dfs fig c with
  | Except.error e => Except.error e
  | Except.ok (t0, ch, d) =>
      Except.ok {
        title := if 1 < nSel then pySlice8Insert (Char.ofNat (97 + i)) t0 else t0,
        chart := applyMobileIf isMobile fig (applyCommonLayout showLegend ch),
        table := if showTable then some d else none }

/-- The source loop over the selected countries, with the running index used
for the ordinal letter.  An exception for any country aborts the whole loop,
exactly as in the Python callback. -/
def buildList (dfs : FigId → DataFrame) (fig : FigId) (st sl mob : Bool)
    (nSel : Nat) : Nat → List String → Except String (List ViewBlock)
  | _, [] => Except.ok []
  | i, c :: rest =>
    match buildForCountry dfs fig st sl mob nSel i c with
    | Except.error e => Except.error e
    | Except.ok b =>
      match buildList dfs fig st sl mob nSel (i + 1) rest with
      | Except.error e => Except.error e
      | Except.ok bs => Except.ok (b :: bs)

/-- The country normalization of the source: a single scalar code is promoted
to a one-element list, a list is used unchanged. -/
def normalizeCountries : Sum String (List String) → List String
  | Sum.inl c => [c]
  | Sum.inr cs => cs

/-- The figure-specific caption texts (`figure_descriptions`), abridged to
their identifying opening sentences. -/
def figure_descriptions : FigId → String
  | FigId.fig1 => "Source: Bruegel based on Eurostat and national statistical institutes. Note: Figure 1 displays multiple measures of year-on-year (yoy) inflation since January 2019."
  | FigId.fig2 => "Source: Bruegel based on Eurostat and national statistical institutes. Note: Figure 2 shows inflation inequality, the black line, defined here as the difference in inflation rates faced by low- and high-income households."
  | FigId.fig3 => "Source: Bruegel based on Eurostat and national statistical institutes. Note: Figure 3 shows the two factors necessary for a consumption category to affect inflation inequality."

/-- One element of the returned children list: a per-country view block or the
trailing caption block. -/
inductive OutBlock where
  | view : ViewBlock → OutBlock
  | caption : String → OutBlock
deriving DecidableEq, Repr

/-- Predicate that is `true` exactly on caption blocks. -/
def isCaptionB : OutBlock → Bool
  | OutBlock.caption _ => true
  | OutBlock.view _ => false

/-- The whole callback `update_selected_data`: normalize the selection, build
one view block per country in order, and append the single trailing caption
block.  Any per-country exception aborts the whole render. -/
def update_selected_data (dfs : FigId → DataFrame) (raw : Sum String (List String))
    (fig : FigId) (st sl mob : Bool) : Except String (List OutBlock) :=
  match buildList dfs fig st sl mob (normalizeCountries raw).length 0 (normalizeCountries raw) with
  | Except.error e => Except.error e
  | Except.ok blocks =>
      Except.ok (blocks.map OutBlock.view ++ [OutBlock.caption (figure_descriptions fig)])

/-- Predicate that is `true` exactly when the computation did not raise. -/
def exceptOk {α : Type} : Except String α → Bool
  | Except.ok _ => true
  | Except.error _ => false

/-- A figure-1 dataset in which the slice of Austria is malformed (its
top-quantile column is entirely missing, so `dropna` removes it) while the
slice of Germany is valid. -/
def exFig1bad : DataFrame :=
  ⟨[("Country", [Cell.str "AT", Cell.str "DE"]),
    ("Date", [Cell.num 1, Cell.num 1]),
    ("Top quintile", [Cell.na, Cell.num 5]),
    ("Bottom quintile", [Cell.num 2, Cell.num 2]),
    ("Total", [Cell.num 3, Cell.num 3]),
    ("HICP", [Cell.num 4, Cell.num 4])]⟩

/-- A figure-1 dataset in which both Austria and Germany have valid slices. -/
def exFig1good : DataFrame :=
  ⟨[("Country", [Cell.str "AT", Cell.str "DE"]),
    ("Date", [Cell.num 1, Cell.num 1]),
    ("Top quintile", [Cell.num 3, Cell.num 5]),
    ("Bottom quintile", [Cell.num 2, Cell.num 2]),
    ("Total", [Cell.num 3, Cell.num 3]),
    ("HICP", [Cell.num 4, Cell.num 4])]⟩

/-- A small valid figure-2 dataset for Austria and Germany. -/
def exFig2df : DataFrame :=
  ⟨[("Country", [Cell.str "AT", Cell.str "DE"]),
    ("Date", [Cell.num 1, Cell.num 1]),
    ("Consumption category", [Cell.str "Food", Cell.str "Food"]),
    ("Effect on inflation inequality", [Cell.num 1, Cell.num 2]),
    ("Difference between inflation rates of bottom and top quantiles",
     [Cell.num 1, Cell.num 1])]⟩

/-- A small valid figure-3 dataset for Austria and Germany. -/
def exFig3df : DataFrame :=
  ⟨[("Country", [Cell.str "AT", Cell.str "DE"]),
    ("COICOP", [Cell.num 1, Cell.num 2]),
    ("Main category", [Cell.str "Food", Cell.str "Food"]),
    ("Difference in share of total expenditure", [Cell.num 1, Cell.num 2]),
    ("Average inflation in 2019", [Cell.num 1, Cell.num 1]),
    ("Average inflation in 2020", [Cell.num 2, Cell.num 2]),
    ("Average inflation in 2021", [Cell.num 3, Cell.num 3]),
    ("Average inflation in 2022", [Cell.num 4, Cell.num 4]),
    ("Average inflation in 2023", [Cell.num 5, Cell.num 6])]⟩

/-- Dataset store whose figure-1 sheet is `exFig1bad` (Austria malformed). -/
def exDfsBad : FigId → DataFrame
  | FigId.fig1 => exFig1bad
  | FigId.fig2 => exFig2df
  | FigId.fig3 => exFig3df

/-- Dataset store with valid slices for Austria and Germany on all figures. -/
def exDfsGood : FigId → DataFrame
  | FigId.fig1 => exFig1good
  | FigId.fig2 => exFig2df
  | FigId.fig3 => exFig3df

/-- A dataset whose column `X` has one present and one missing value for
Austria: the generic pruning drops it although a present value exists. -/
def exC2df : DataFrame :=
  ⟨[("Country", [Cell.str "AT", Cell.str "AT"]),
    ("X", [Cell.num 1, Cell.na])]⟩

/-- A post-pipeline figure-2 slice (no `Country` column, no missing values). -/
def exFig2slice : DataFrame :=
  ⟨[("Date", [Cell.num 1]),
    ("Consumption category", [Cell.str "Food"]),
    ("Effect on inflation inequality", [Cell.num 1]),
    ("Difference between inflation rates of bottom and top quantiles", [Cell.num 1])]⟩

/-- The first eight characters of every canonical title form the
figure-number token. -/
theorem canonicalTitle_take8 (fig : FigId) (q cname : String) :
    (canonicalTitle fig q cname).data.take 8 = (figNumTok fig).data := by
  cases fig with
  | fig1 =>
    show (("Figure 1: Inflation rate for top and bottom " ++ q) ++ " - " ++ cname).data.take 8 = _
    rw [String.data_append, String.data_append, String.data_append]
    rw [List.append_assoc, List.append_assoc]
    rw [List.take_append_of_le_length (by decide)]
    decide
  | fig2 =>
    show ("Figure 2: Expenditure categories driving inflation inequality - " ++ cname).data.take 8 = _
    rw [String.data_append]
    rw [List.take_append_of_le_length (by decide)]
    decide
  | fig3 =>
    show ("Figure 3: Price growth and difference in importance of consumption categories - " ++ cname).data.take 8 = _
    rw [String.data_append]
    rw [List.take_append_of_le_length (by decide)]
    decide

/-- A cell passes the `dropna` keep-test exactly when it is not missing. -/
theorem notIsNa_iff (v : Cell) : (!isNa v) = true ↔ v ≠ Cell.na := by
  cases v <;> simp [isNa]

/-- Counterexample for C2: for Austria in `exC2df`, column `X` holds one
present and one missing value, so under the claimed rule (drop only when
every value is absent) it would be retained — yet the slice passed on by the
pipeline has no columns at all: `X` was dropped. -/
theorem c2_counterexample :
    exC2df.getCol? "X" = some [Cell.num 1, Cell.na] ∧
    Cell.num 1 ≠ Cell.na ∧
    selectedSlice (fun _ => exC2df) FigId.fig1 "AT" = Except.ok ⟨[]⟩ :=
  ⟨rfl, by decide, rfl⟩

/-- Claim C2 (amended): the generic pruning of the per-country slice is pandas
dropna on columns with its default any-missing test: a column is dropped
exactly when AT LEAST ONE of its values is absent in the rows of that
country, and
retained exactly when every value is present. -/
theorem c2_generic_pruning (dfs : FigId → DataFrame) (fig : FigId) (c : String)
    (s0 mid : DataFrame)
    (hfig : fig ≠ FigId.fig3)
    (h0 : (dfs fig).filterCountry c = Except.ok s0)
    (h1 : s0.dropColumn "Country" = Except.ok mid) :
    selectedSlice dfs fig c = Except.ok mid.dropna ∧
    ∀ p ∈ mid.cols, (p ∈ mid.dropna.cols ↔ ∀ v ∈ p.2, v ≠ Cell.na) := by
  constructor
  · unfold selectedSlice
    rw [h0]
    dsimp only
    rw [h1]
    dsimp only
    rw [if_neg hfig]
  · intro p hp
    simp only [DataFrame.dropna, List.mem_filter, List.all_eq_true]
    constructor
    · rintro ⟨-, hall⟩ v hv
      exact (notIsNa_iff v).mp (hall v hv)
    · intro hall
      exact ⟨hp, fun v hv => (notIsNa_iff v).mpr (hall v hv)⟩

/-- Witness for C2 (amended) at the concrete store built from `exC2df`. -/
theorem c2_generic_pruning_witness :
    ((fun _ => exC2df : FigId → DataFrame) FigId.fig1).filterCountry "AT" =
      Except.ok ⟨[("Country", [Cell.str "AT", Cell.str "AT"]),
                  ("X", [Cell.num 1, Cell.na])]⟩ ∧
    (DataFrame.mk [("Country", [Cell.str "AT", Cell.str "AT"]),
                   ("X", [Cell.num 1, Cell.na])]).dropColumn "Country" =
      Except.ok ⟨[("X", [Cell.num 1, Cell.na])]⟩ ∧
    selectedSlice (fun _ => exC2df) FigId.fig1 "AT" =
      Except.ok (DataFrame.mk [("X", [Cell.num 1, Cell.na])]).dropna ∧
    (("X", [Cell.num 1, Cell.na]) ∈ (DataFrame.mk [("X", [Cell.num 1, Cell.na])]).dropna.cols ↔
      ∀ v ∈ [Cell.num 1, Cell.na], v ≠ Cell.na) := by
  have h := c2_generic_pruning (fun _ => exC2df) FigId.fig1 "AT"
      ⟨[("Country", [Cell.str "AT", Cell.str "AT"]), ("X", [Cell.num 1, Cell.na])]⟩
      ⟨[("X", [Cell.num 1, Cell.na])]⟩ (by decide) rfl rfl
  exact ⟨rfl, rfl, h.1, h.2 ("X", [Cell.num 1, Cell.na]) (by decide)⟩

/-- Claim C3: the quantile-label resolution is a total function over country
codes with no error path, returning `quartile` exactly for `"BE"` and
`quintile` for every other code. -/
theorem c3_quantile_resolution :
    resolveQuantile "BE" = "quartile" ∧
    ∀ c : String, c ≠ "BE" → resolveQuantile c = "quintile" := by
  refine ⟨rfl, ?_⟩
  intro c hc
  unfold resolveQuantile
  rw [if_neg hc]

/-- Witness for C3 at the concrete codes `"BE"` and `"AT"`. -/
theorem c3_quantile_resolution_witness :
    resolveQuantile "BE" = "quartile" ∧
    ("AT" : String) ≠ "BE" ∧ resolveQuantile "AT" = "quintile" :=
  ⟨c3_quantile_resolution.1, by decide, c3_quantile_resolution.2 "AT" (by decide)⟩

/-- Counterexample for C8: when the raw selection delivers the empty country
list, normalization returns the empty sequence, so the normalized sequence is
not always non-empty. -/
theorem c8_counterexample :
    normalizeCountries (Sum.inr ([] : List String)) = [] ∧
    (normalizeCountries (Sum.inr ([] : List String))).length = 0 :=
  ⟨rfl, rfl⟩

/-- Claim C8 (amended): normalization promotes a scalar country code to a
one-element sequence and passes a delivered sequence through unchanged in
order; the result is empty exactly when the raw selection delivered the empty
sequence (it is not unconditionally non-empty). -/
theorem c8_normalization :
    (∀ c : String, normalizeCountries (Sum.inl c) = [c]) ∧
    (∀ cs : List String, normalizeCountries (Sum.inr cs) = cs) ∧
    (∀ raw : Sum String (List String),
       normalizeCountries raw = [] ↔ raw = Sum.inr []) := by
  refine ⟨fun c => rfl, fun cs => rfl, ?_⟩
  intro raw
  cases raw with
  | inl c => simp [normalizeCountries]
  | inr cs => simp [normalizeCountries]

/-- Helper for C1: if the `k`-th country of the loop fails to build (with the
running index starting at `i`), the whole loop raises. -/
theorem buildList_fails_of_elem (dfs : FigId → DataFrame) (fig : FigId)
    (st sl mob : Bool) (nSel : Nat) :
    ∀ (cs : List String) (i k : Nat) (c : String),
      cs[k]? = some c →
      exceptOk (buildForCountry dfs fig st sl mob nSel (i + k) c) = false →
      exceptOk (buildList dfs fig st sl mob nSel i cs) = false := by
  intro cs
  induction cs with
  | nil => intro i k c hk _; simp at hk
  | cons c0 rest ih =>
    intro i k c hk hfail
    cases k with
    | zero =>
      simp at hk
      subst hk
      rw [Nat.add_zero] at hfail
      unfold buildList
      cases hb : buildForCountry dfs fig st sl mob nSel i c0 with
      | error e => rfl
      | ok b => rw [hb] at hfail; simp [exceptOk] at hfail
    | succ kp =>
      simp at hk
      rw [show i + (kp + 1) = (i + 1) + kp by omega] at hfail
      unfold buildList
      cases hb : buildForCountry dfs fig st sl mob nSel i c0 with
      | error e => rfl
      | ok b =>
        have hr := ih (i + 1) kp c hk hfail
        cases hbl : buildList dfs fig st sl mob nSel (i + 1) rest with
        | error e => rfl
        | ok bs => rw [hbl] at hr; simp [exceptOk] at hr

/-- Claim C1 (amended): the per-country builds are not isolated — when the
build for any selected country fails, the whole render raises and no
ViewBlock of any country (valid ones included) is produced. -/
theorem c1_failure_aborts_render (dfs : FigId → DataFrame)
    (raw : Sum String (List String)) (fig : FigId) (st sl mob : Bool)
    (k : Nat) (c : String)
    (hk : (normalizeCountries raw)[k]? = some c)
    (hfail : exceptOk (buildForCountry dfs fig st sl mob
               (normalizeCountries raw).length k c) = false) :
    exceptOk (update_selected_data dfs raw fig st sl mob) = false := by
  have h := buildList_fails_of_elem dfs fig st sl mob (normalizeCountries raw).length
      (normalizeCountries raw) 0 k c hk (by simpa using hfail)
  unfold update_selected_data
  cases hb : buildList dfs fig st sl mob (normalizeCountries raw).length 0
      (normalizeCountries raw) with
  | error e => rfl
  | ok blocks => rw [hb] at h; simp [exceptOk] at h

/-- Counterexample for C1: in `exDfsBad` the figure-1 slice of Austria is
malformed (its build fails) while the build for Germany succeeds in
isolation, yet requesting `[AT, DE]` makes the whole render raise, so the
ViewBlock of Germany is not produced. -/
theorem c1_counterexample :
    exceptOk (buildForCountry exDfsBad FigId.fig1 false true false 2 1 "DE") = true ∧
    exceptOk (buildForCountry exDfsBad FigId.fig1 false true false 2 0 "AT") = false ∧
    exceptOk (update_selected_data exDfsBad (Sum.inr ["AT", "DE"])
      FigId.fig1 false true false) = false :=
  ⟨rfl, rfl, rfl⟩

/-- Witness for C1 (amended) at the concrete store `exDfsBad` and the
selection `[AT, DE]`. -/
theorem c1_failure_aborts_render_witness :
    (normalizeCountries (Sum.inr ["AT", "DE"]))[0]? = some "AT" ∧
    exceptOk (buildForCountry exDfsBad FigId.fig1 false true false
      (normalizeCountries (Sum.inr ["AT", "DE"])).length 0 "AT") = false ∧
    exceptOk (update_selected_data exDfsBad (Sum.inr ["AT", "DE"])
      FigId.fig1 false true false) = false :=
  ⟨rfl, rfl,
    c1_failure_aborts_render exDfsBad (Sum.inr ["AT", "DE"]) FigId.fig1
      false true false 0 "AT" rfl rfl⟩

/-- Inversion of a successful `buildForCountry`. -/
theorem buildForCountry_ok_inv {dfs : FigId → DataFrame} {fig : FigId}
    {st sl mob : Bool} {nSel i : Nat} {c : String} {b : ViewBlock}
    (h : buildForCountry dfs fig st sl mob nSel i c = Except.ok b) :
    ∃ t0 ch d, buildChartTitle dfs fig c = Except.ok (t0, ch, d) ∧
      b = { title := if 1 < nSel then pySlice8Insert (Char.ofNat (97 + i)) t0 else t0,
            chart := applyMobileIf mob fig (applyCommonLayout sl ch),
            table := if st then some d else none } := by
  unfold buildForCountry at h
  cases hct : buildChartTitle dfs fig c with
  | error e => rw [hct] at h; exact Except.noConfusion h
  | ok p =>
    obtain ⟨t0, ch, d⟩ := p
    rw [hct] at h
    dsimp only at h
    injection h with hb
    exact ⟨t0, ch, d, rfl, hb.symm⟩

/-- Inversion of a successful `buildChartTitle`: the slice, display name and
figure builder all succeeded and produced the components. -/
theorem buildChartTitle_ok_inv {dfs : FigId → DataFrame} {fig : FigId} {c : String}
    {t0 : String} {ch : ChartDescriptor} {d : DataFrame}
    (h : buildChartTitle dfs fig c = Except.ok (t0, ch, d)) :
    selectedSlice dfs fig c = Except.ok d ∧
    (∃ cname, lookupCountry c = Except.ok cname ∧
       t0 = canonicalTitle fig (resolveQuantile c) cname) ∧
    (fig = FigId.fig1 → buildFig1 d (resolveQuantile c) = Except.ok ch) ∧
    (fig = FigId.fig2 → buildFig2 d (resolveQuantile c) = Except.ok ch) ∧
    (fig = FigId.fig3 → buildFig3 d = Except.ok ch) := by
  unfold buildChartTitle at h
  cases hs : selectedSlice dfs fig c with
  | error e => rw [hs] at h; exact Except.noConfusion h
  | ok d0 =>
    rw [hs] at h
    dsimp only at h
    cases hl : lookupCountry c with
    | error e => rw [hl] at h; exact Except.noConfusion h
    | ok cname =>
      rw [hl] at h
      dsimp only at h
      cases fig with
      | fig1 =>
        cases hb : buildFig1 d0 (resolveQuantile c) with
        | error e => rw [hb] at h; exact Except.noConfusion h
        | ok ch0 =>
          rw [hb] at h
          dsimp only at h
          injection h with hp
          simp only [Prod.mk.injEq] at hp
          obtain ⟨ht, hch, hd⟩ := hp
          subst ht; subst hch; subst hd
          exact ⟨rfl, ⟨cname, rfl, rfl⟩, fun _ => hb,
                 fun hf => FigId.noConfusion hf, fun hf => FigId.noConfusion hf⟩
      | fig2 =>
        cases hb : buildFig2 d0 (resolveQuantile c) with
        | error e => rw [hb] at h; exact Except.noConfusion h
        | ok ch0 =>
          rw [hb] at h
          dsimp only at h
          injection h with hp
          simp only [Prod.mk.injEq] at hp
          obtain ⟨ht, hch, hd⟩ := hp
          subst ht; subst hch; subst hd
          exact ⟨rfl, ⟨cname, rfl, rfl⟩, fun hf => FigId.noConfusion hf,
                 fun _ => hb, fun hf => FigId.noConfusion hf⟩
      | fig3 =>
        cases hb : buildFig3 d0 with
        | error e => rw [hb] at h; exact Except.noConfusion h
        | ok ch0 =>
          rw [hb] at h
          dsimp only at h
          injection h with hp
          simp only [Prod.mk.injEq] at hp
          obtain ⟨ht, hch, hd⟩ := hp
          subst ht; subst hch; subst hd
          exact ⟨rfl, ⟨cname, rfl, rfl⟩, fun hf => FigId.noConfusion hf,
                 fun hf => FigId.noConfusion hf, fun _ => hb⟩

/-- Axis and legend configuration of any successful figure-1 build. -/
theorem buildFig1_ok_config {d : DataFrame} {q : String} {ch : ChartDescriptor}
    (h : buildFig1 d q = Except.ok ch) :
    ch.xaxis = { title := none, dtick := some "M3", zeroline := false } ∧
    ch.legend = { orientation := none, y := none } := by
  unfold buildFig1 at h
  repeat' (split at h)
  all_goals first
    | exact Except.noConfusion h
    | (injection h with hh; subst hh; exact ⟨rfl, rfl⟩)

/-- Axis and legend configuration of any successful figure-2 build. -/
theorem buildFig2_ok_config {d : DataFrame} {q : String} {ch : ChartDescriptor}
    (h : buildFig2 d q = Except.ok ch) :
    ch.xaxis = { title := none, dtick := some "M3", zeroline := false } ∧
    ch.legend = { orientation := none, y := none } := by
  unfold buildFig2 at h
  repeat' (split at h)
  all_goals first
    | exact Except.noConfusion h
    | (injection h with hh; subst hh; exact ⟨rfl, rfl⟩)

/-- Axis and legend configuration of any successful figure-3 build. -/
theorem buildFig3_ok_config {d : DataFrame} {ch : ChartDescriptor}
    (h : buildFig3 d = Except.ok ch) :
    ch.xaxis = { title := some "Difference in share of total expenditure",
                 dtick := none, zeroline := true } ∧
    ch.legend = { orientation := none, y := none } := by
  unfold buildFig3 at h
  repeat' (split at h)
  all_goals first
    | exact Except.noConfusion h
    | (injection h with hh; subst hh; exact ⟨rfl, rfl⟩)

/-- Claim C4: with more than one selected country, the title of the i-th ViewBlock
is the canonical title with the letter `chr(97+i)` inserted immediately after
the eight-character figure-number token; with exactly one selected country the
canonical title is used unchanged. -/
theorem c4_title_ordinal (dfs : FigId → DataFrame) (fig : FigId)
    (st sl mob : Bool) (nSel i : Nat) (c : String) (b : ViewBlock) (cname : String)
    (hb : buildForCountry dfs fig st sl mob nSel i c = Except.ok b)
    (hc : lookupCountry c = Except.ok cname) :
    (1 < nSel → b.title.data =
        (figNumTok fig).data ++ Char.ofNat (97 + i) ::
          (canonicalTitle fig (resolveQuantile c) cname).data.drop 8) ∧
    (nSel = 1 → b.title = canonicalTitle fig (resolveQuantile c) cname) := by
  obtain ⟨t0, ch, d, hct, rfl⟩ := buildForCountry_ok_inv hb
  obtain ⟨-, ⟨cname', hl, ht⟩, -, -, -⟩ := buildChartTitle_ok_inv hct
  rw [hc] at hl
  injection hl with he
  subst he
  subst ht
  constructor
  · intro hn
    dsimp only
    rw [if_pos hn]
    unfold pySlice8Insert
    dsimp only
    rw [canonicalTitle_take8]
  · intro hn
    dsimp only
    rw [if_neg (by omega)]

/-- Witness for C4: Germany as the second of two selected countries on
figure 1 gets the ordinal letter `b` (character code 98) after the
figure-number token. -/
theorem c4_title_ordinal_witness :
    ∃ b : ViewBlock,
      buildForCountry exDfsGood FigId.fig1 false true false 2 1 "DE" = Except.ok b ∧
      b.title.data = (figNumTok FigId.fig1).data ++ Char.ofNat 98 ::
        (canonicalTitle FigId.fig1 (resolveQuantile "DE") "Germany").data.drop 8 := by
  cases hb : buildForCountry exDfsGood FigId.fig1 false true false 2 1 "DE" with
  | error e =>
    have hok : exceptOk (buildForCountry exDfsGood FigId.fig1 false true false 2 1 "DE") = true := rfl
    rw [hb] at hok
    simp [exceptOk] at hok
  | ok b =>
    have h := (c4_title_ordinal exDfsGood FigId.fig1 false true false 2 1 "DE" b "Germany"
        hb rfl).1 (by omega)
    exact ⟨b, rfl, h⟩

/-- Claim C6: with identical selections differing only in the device class,
the legend of the mobile chart is horizontal and anchored below the plot while the
desktop chart keeps the plotly default placement; for figures 1 and 2 the
mobile x-tick interval (six months) is strictly coarser than the desktop one
(three months); for figure 3 the tick interval is identical on both devices. -/
theorem c6_mobile_adaptation (dfs : FigId → DataFrame) (fig : FigId)
    (st sl : Bool) (nSel i : Nat) (c : String) (b bm : ViewBlock)
    (hd : buildForCountry dfs fig st sl false nSel i c = Except.ok b)
    (hm : buildForCountry dfs fig st sl true nSel i c = Except.ok bm) :
    (b.chart.legend.orientation = none ∧ b.chart.legend.y = none) ∧
    (bm.chart.legend.orientation = some "h" ∧
      bm.chart.legend.y = some (if fig = FigId.fig3 then "-0.25" else "-0.15")) ∧
    ((fig = FigId.fig1 ∨ fig = FigId.fig2) →
       b.chart.xaxis.dtick = some "M3" ∧ bm.chart.xaxis.dtick = some "M6") ∧
    (fig = FigId.fig3 → bm.chart.xaxis.dtick = b.chart.xaxis.dtick) := by
  obtain ⟨t0, ch, d, hct, rfl⟩ := buildForCountry_ok_inv hd
  obtain ⟨t0m, chm, dm, hctm, rfl⟩ := buildForCountry_ok_inv hm
  rw [hct] at hctm
  injection hctm with hp
  simp only [Prod.mk.injEq] at hp
  obtain ⟨-, hch, -⟩ := hp
  subst hch
  obtain ⟨-, -, hb1, hb2, hb3⟩ := buildChartTitle_ok_inv hct
  cases fig with
  | fig1 =>
    obtain ⟨hax, hleg⟩ := buildFig1_ok_config (hb1 rfl)
    simp [applyMobileIf, applyCommonLayout, hax, hleg]
  | fig2 =>
    obtain ⟨hax, hleg⟩ := buildFig2_ok_config (hb2 rfl)
    simp [applyMobileIf, applyCommonLayout, hax, hleg]
  | fig3 =>
    obtain ⟨hax, hleg⟩ := buildFig3_ok_config (hb3 rfl)
    simp [applyMobileIf, applyCommonLayout, hax, hleg]

/-- Witness for C6: Austria on figure 1 over `exDfsGood`, desktop versus
mobile. -/
theorem c6_mobile_adaptation_witness :
    ∃ b bm : ViewBlock,
      buildForCountry exDfsGood FigId.fig1 false true false 1 0 "AT" = Except.ok b ∧
      buildForCountry exDfsGood FigId.fig1 false true true 1 0 "AT" = Except.ok bm ∧
      b.chart.legend.orientation = none ∧
      bm.chart.legend.orientation = some "h" ∧
      b.chart.xaxis.dtick = some "M3" ∧ bm.chart.xaxis.dtick = some "M6" := by
  cases hd : buildForCountry exDfsGood FigId.fig1 false true false 1 0 "AT" with
  | error e =>
    have hok : exceptOk (buildForCountry exDfsGood FigId.fig1 false true false 1 0 "AT") = true := rfl
    rw [hd] at hok
    simp [exceptOk] at hok
  | ok b =>
    cases hmb : buildForCountry exDfsGood FigId.fig1 false true true 1 0 "AT" with
    | error e =>
      have hok : exceptOk (buildForCountry exDfsGood FigId.fig1 false true true 1 0 "AT") = true := rfl
      rw [hmb] at hok
      simp [exceptOk] at hok
    | ok bm =>
      have h := c6_mobile_adaptation exDfsGood FigId.fig1 false true 1 0 "AT" b bm hd hmb
      exact ⟨b, bm, rfl, rfl, h.1.1, h.2.1.1, (h.2.2.1 (Or.inl rfl)).1, (h.2.2.1 (Or.inl rfl)).2⟩

/-- Claim C7: with every other input fixed, toggling the table switch leaves
the produced title and chart descriptor unchanged; it only switches the table
between present and absent (with the table absent when the switch is off). -/
theorem c7_showTable_independent (dfs : FigId → DataFrame) (fig : FigId)
    (sl mob : Bool) (nSel i : Nat) (c : String) :
    (buildForCountry dfs fig true sl mob nSel i c).map (fun b => (b.title, b.chart)) =
      (buildForCountry dfs fig false sl mob nSel i c).map (fun b => (b.title, b.chart)) ∧
    (buildForCountry dfs fig false sl mob nSel i c).map (fun b => b.table) =
      (buildForCountry dfs fig false sl mob nSel i c).map (fun _ => (none : Option DataFrame)) := by
  unfold buildForCountry
  cases hct : buildChartTitle dfs fig c with
  | error e => exact ⟨rfl, rfl⟩
  | ok p =>
    obtain ⟨t0, ch, d⟩ := p
    exact ⟨rfl, rfl⟩

/-- A successful column access by name determines the lookup. -/
theorem getColE_ok_getCol? {d : DataFrame} {nm : String} {vs : List Cell}
    (h : d.getColE nm = Except.ok vs) : d.getCol? nm = some vs := by
  unfold DataFrame.getColE at h
  cases hg : d.getCol? nm with
  | none => rw [hg] at h; exact Except.noConfusion h
  | some ws => rw [hg] at h; dsimp only at h; injection h with hw; rw [hw]

/-- After a successful `dropColumn nm`, no column is named `nm`. -/
theorem dropColumn_not_mem {df : DataFrame} {nm : String} {d : DataFrame}
    (h : df.dropColumn nm = Except.ok d) : nm ∉ d.colNames := by
  unfold DataFrame.dropColumn at h
  split at h
  · injection h with hh
    subst hh
    intro hmem
    simp only [DataFrame.colNames, List.mem_map, List.mem_filter, bne_iff_ne] at hmem
    obtain ⟨p, ⟨-, hne⟩, hfst⟩ := hmem
    exact hne hfst
  · exact Except.noConfusion h

/-- The operation `dropColumn` only removes columns: remaining names come from `df`. -/
theorem dropColumn_subset {df : DataFrame} {nm : String} {d : DataFrame}
    (h : df.dropColumn nm = Except.ok d) : ∀ x, x ∈ d.colNames → x ∈ df.colNames := by
  unfold DataFrame.dropColumn at h
  split at h
  · injection h with hh
    subst hh
    intro x hx
    simp only [DataFrame.colNames, List.mem_map, List.mem_filter] at hx ⊢
    obtain ⟨p, ⟨hp, -⟩, hfst⟩ := hx
    exact ⟨p, hp, hfst⟩
  · exact Except.noConfusion h

/-- The operation `dropColumns` only removes columns. -/
theorem dropColumns_subset : ∀ (ns : List String) (df d : DataFrame),
    df.dropColumns ns = Except.ok d → ∀ x, x ∈ d.colNames → x ∈ df.colNames := by
  intro ns
  induction ns with
  | nil =>
    intro df d h x hx
    injection h with hh
    subst hh
    exact hx
  | cons n0 rest ih =>
    intro df d h x hx
    unfold DataFrame.dropColumns at h
    cases hd : df.dropColumn n0 with
    | error e => rw [hd] at h; exact Except.noConfusion h
    | ok mid =>
      rw [hd] at h
      dsimp only at h
      exact dropColumn_subset hd x (ih mid d h x hx)

/-- After a successful `dropColumns`, none of the dropped names remains. -/
theorem dropColumns_not_mem : ∀ (ns : List String) (df d : DataFrame),
    df.dropColumns ns = Except.ok d → ∀ nm ∈ ns, nm ∉ d.colNames := by
  intro ns
  induction ns with
  | nil => intro df d h nm hnm; simp at hnm
  | cons n0 rest ih =>
    intro df d h nm hnm
    unfold DataFrame.dropColumns at h
    cases hd : df.dropColumn n0 with
    | error e => rw [hd] at h; exact Except.noConfusion h
    | ok mid =>
      rw [hd] at h
      dsimp only at h
      rcases List.mem_cons.mp hnm with rfl | hmem
      · intro hx
        exact dropColumn_not_mem hd (dropColumns_subset rest mid d h nm hx)
      · exact ih mid d h nm hmem

/-- The figure-3 slice never carries the five explicitly dropped columns. -/
theorem selectedSlice_fig3_not_mem {dfs : FigId → DataFrame} {c : String} {d : DataFrame}
    (h : selectedSlice dfs FigId.fig3 c = Except.ok d) :
    "COICOP" ∉ d.colNames ∧ "Average inflation in 2019" ∉ d.colNames ∧
    "Average inflation in 2020" ∉ d.colNames ∧ "Average inflation in 2021" ∉ d.colNames ∧
    "Average inflation in 2022" ∉ d.colNames := by
  unfold selectedSlice at h
  cases h0 : (dfs FigId.fig3).filterCountry c with
  | error e => rw [h0] at h; exact Except.noConfusion h
  | ok s0 =>
    rw [h0] at h
    dsimp only at h
    cases h1 : s0.dropColumn "Country" with
    | error e => rw [h1] at h; exact Except.noConfusion h
    | ok s1 =>
      rw [h1] at h
      dsimp only at h
      rw [if_pos rfl] at h
      have hm := dropColumns_not_mem _ _ _ h
      exact ⟨hm "COICOP" (by simp), hm "Average inflation in 2019" (by simp),
             hm "Average inflation in 2020" (by simp), hm "Average inflation in 2021" (by simp),
             hm "Average inflation in 2022" (by simp)⟩

/-- Every y-series of a successful figure-3 build is a row selection of the
`Average inflation in 2023` column of its slice. -/
theorem buildFig3_ok_series {d : DataFrame} {ch : ChartDescriptor}
    (h : buildFig3 d = Except.ok ch) :
    ∃ ys, d.getCol? "Average inflation in 2023" = some ys ∧
      ∀ s ∈ ch.series, ∃ mask, s.y = maskFilter mask ys := by
  unfold buildFig3 at h
  cases hx : d.getColE "Difference in share of total expenditure" with
  | error e => rw [hx] at h; exact Except.noConfusion h
  | ok xs =>
    rw [hx] at h
    dsimp only at h
    cases hy : d.getColE "Average inflation in 2023" with
    | error e => rw [hy] at h; exact Except.noConfusion h
    | ok ys =>
      rw [hy] at h
      dsimp only at h
      cases hc : d.getColE "Main category" with
      | error e => rw [hc] at h; exact Except.noConfusion h
      | ok cats =>
        rw [hc] at h
        dsimp only at h
        injection h with hh
        subst hh
        refine ⟨ys, getColE_ok_getCol? hy, ?_⟩
        intro s hs
        dsimp only at hs
        obtain ⟨cv, -, rfl⟩ := List.mem_map.mp hs
        exact ⟨cats.map (fun y => y == cv), rfl⟩

/-- Neither layout pass touches the trace list. -/
theorem layout_preserves_series (mob : Bool) (fig : FigId) (sl : Bool)
    (ch : ChartDescriptor) :
    (applyMobileIf mob fig (applyCommonLayout sl ch)).series = ch.series := by
  unfold applyMobileIf applyCommonLayout
  cases mob with
  | false => rfl
  | true =>
    dsimp only
    split
    · split <;> rfl
    · rfl

/-- Claim C5: on figure 3 the rendered table (whenever present, for any value
of the table switch) carries neither the category-identifier column nor any
of the four oldest-year average-inflation columns, while every chart trace
still reads its y-values from the `Average inflation in 2023` column of the
slice. -/
theorem c5_fig3_table_suppression (dfs : FigId → DataFrame) (st sl mob : Bool)
    (nSel i : Nat) (c : String) (b : ViewBlock)
    (hb : buildForCountry dfs FigId.fig3 st sl mob nSel i c = Except.ok b) :
    (∀ t, b.table = some t →
       "COICOP" ∉ t.colNames ∧ "Average inflation in 2019" ∉ t.colNames ∧
       "Average inflation in 2020" ∉ t.colNames ∧ "Average inflation in 2021" ∉ t.colNames ∧
       "Average inflation in 2022" ∉ t.colNames) ∧
    (∃ d ys, selectedSlice dfs FigId.fig3 c = Except.ok d ∧
       d.getCol? "Average inflation in 2023" = some ys ∧
       ∀ s ∈ b.chart.series, ∃ mask, s.y = maskFilter mask ys) := by
  obtain ⟨t0, ch, d, hct, rfl⟩ := buildForCountry_ok_inv hb
  obtain ⟨hs, -, -, -, hb3⟩ := buildChartTitle_ok_inv hct
  have hnm := selectedSlice_fig3_not_mem hs
  obtain ⟨ys, hgc, hser⟩ := buildFig3_ok_series (hb3 rfl)
  constructor
  · intro t ht
    dsimp only at ht
    cases st with
    | false => simp at ht
    | true =>
      rw [if_pos rfl] at ht
      injection ht with ht
      subst ht
      exact hnm
  · refine ⟨d, ys, hs, hgc, ?_⟩
    intro s hsm
    dsimp only at hsm
    rw [layout_preserves_series] at hsm
    exact hser s hsm

/-- Witness for C5: Austria on figure 3 with the table switch on. -/
theorem c5_fig3_table_suppression_witness :
    ∃ b : ViewBlock,
      buildForCountry exDfsGood FigId.fig3 true true false 1 0 "AT" = Except.ok b ∧
      (∀ t, b.table = some t →
        "COICOP" ∉ t.colNames ∧ "Average inflation in 2019" ∉ t.colNames ∧
        "Average inflation in 2020" ∉ t.colNames ∧ "Average inflation in 2021" ∉ t.colNames ∧
        "Average inflation in 2022" ∉ t.colNames) ∧
      (∃ d ys, selectedSlice exDfsGood FigId.fig3 "AT" = Except.ok d ∧
        d.getCol? "Average inflation in 2023" = some ys ∧
        ∀ s ∈ b.chart.series, ∃ mask, s.y = maskFilter mask ys) := by
  cases hb : buildForCountry exDfsGood FigId.fig3 true true false 1 0 "AT" with
  | error e =>
    have hok : exceptOk (buildForCountry exDfsGood FigId.fig3 true true false 1 0 "AT") = true := rfl
    rw [hb] at hok
    simp [exceptOk] at hok
  | ok b =>
    have h := c5_fig3_table_suppression exDfsGood true true false 1 0 "AT" b hb
    exact ⟨b, rfl, h.1, h.2⟩

/-- A successful country loop yields one block per country, each built with its
own selection index. -/
theorem buildList_ok_get (dfs : FigId → DataFrame) (fig : FigId) (st sl mob : Bool)
    (nSel : Nat) :
    ∀ (cs : List String) (i : Nat) (bs : List ViewBlock),
      buildList dfs fig st sl mob nSel i cs = Except.ok bs →
      bs.length = cs.length ∧
      ∀ k c, cs[k]? = some c →
        ∃ vb, buildForCountry dfs fig st sl mob nSel (i + k) c = Except.ok vb ∧
          bs[k]? = some vb := by
  intro cs
  induction cs with
  | nil =>
    intro i bs h
    injection h with hh
    subst hh
    exact ⟨rfl, by intro k c hk; simp at hk⟩
  | cons c0 rest ih =>
    intro i bs h
    unfold buildList at h
    cases hb : buildForCountry dfs fig st sl mob nSel i c0 with
    | error e => rw [hb] at h; exact Except.noConfusion h
    | ok b0 =>
      rw [hb] at h
      dsimp only at h
      cases hr : buildList dfs fig st sl mob nSel (i + 1) rest with
      | error e => rw [hr] at h; exact Except.noConfusion h
      | ok bs0 =>
        rw [hr] at h
        dsimp only at h
        injection h with hh
        subst hh
        obtain ⟨hlen, hget⟩ := ih (i + 1) bs0 hr
        refine ⟨by simp [hlen], ?_⟩
        intro k c hk
        cases k with
        | zero =>
          simp at hk
          subst hk
          exact ⟨b0, by rw [Nat.add_zero]; exact hb, by simp⟩
        | succ kp =>
          simp at hk
          obtain ⟨vb, hvb, hbs⟩ := hget kp c hk
          refine ⟨vb, ?_, ?_⟩
          · rw [show i + (kp + 1) = (i + 1) + kp by omega]
            exact hvb
          · simpa using hbs

/-- Claim C9: any successful render is the per-country ViewBlocks in selection
order followed by exactly one trailing caption block holding the
figure-specific descriptive text, whatever the number of selected countries. -/
theorem c9_composition (dfs : FigId → DataFrame) (raw : Sum String (List String))
    (fig : FigId) (st sl mob : Bool) (out : List OutBlock)
    (h : update_selected_data dfs raw fig st sl mob = Except.ok out) :
    out.length = (normalizeCountries raw).length + 1 ∧
    out.getLast? = some (OutBlock.caption (figure_descriptions fig)) ∧
    out.countP isCaptionB = 1 ∧
    ∀ k c, (normalizeCountries raw)[k]? = some c →
      ∃ vb, buildForCountry dfs fig st sl mob (normalizeCountries raw).length k c = Except.ok vb ∧
        out[k]? = some (OutBlock.view vb) := by
  unfold update_selected_data at h
  cases hb : buildList dfs fig st sl mob (normalizeCountries raw).length 0
      (normalizeCountries raw) with
  | error e => rw [hb] at h; exact Except.noConfusion h
  | ok blocks =>
    rw [hb] at h
    dsimp only at h
    injection h with hh
    subst hh
    obtain ⟨hlen, hget⟩ := buildList_ok_get dfs fig st sl mob _ _ _ _ hb
    refine ⟨by simp [hlen], List.getLast?_concat _, ?_, ?_⟩
    · rw [List.countP_append]
      have h0 : (blocks.map OutBlock.view).countP isCaptionB = 0 := by
        apply List.countP_eq_zero.mpr
        intro a ha
        obtain ⟨vb, -, rfl⟩ := List.mem_map.mp ha
        simp [isCaptionB]
      rw [h0]
      rfl
    · intro k c hk
      obtain ⟨vb, hvb, hbs⟩ := hget k c hk
      have hklt : k < (normalizeCountries raw).length := by
        rcases List.getElem?_eq_some.mp hk with ⟨hlt, -⟩
        exact hlt
      refine ⟨vb, by simpa using hvb, ?_⟩
      rw [List.getElem?_append_left (by rw [List.length_map, hlen]; exact hklt)]
      rw [List.getElem?_map, hbs]
      rfl

/-- Witness for C9: a single-country render over `exDfsGood`. -/
theorem c9_composition_witness :
    ∃ out, update_selected_data exDfsGood (Sum.inl "AT") FigId.fig1 false true false =
        Except.ok out ∧
      out.length = 2 ∧
      out.getLast? = some (OutBlock.caption (figure_descriptions FigId.fig1)) ∧
      out.countP isCaptionB = 1 := by
  cases hu : update_selected_data exDfsGood (Sum.inl "AT") FigId.fig1 false true false with
  | error e =>
    have hok : exceptOk (update_selected_data exDfsGood (Sum.inl "AT")
        FigId.fig1 false true false) = true := rfl
    rw [hu] at hok
    simp [exceptOk] at hok
  | ok out =>
    have h := c9_composition exDfsGood (Sum.inl "AT") FigId.fig1 false true false out hu
    exact ⟨out, rfl, h.1, h.2.1, h.2.2.1⟩

/-- Claim C10: the figure-2 overlay reads its data from the same dataset
column under both quantile labels — the plotted (x, y) data of every trace is
identical across the two branches, and for either label the last trace is the
overlay whose y-values are the `Difference between inflation rates of bottom
and top quantiles` column, the branches differing only in the legend name and
hover wording. -/
theorem c10_fig2_overlay (d : DataFrame) :
    ((buildFig2 d "quintile").map (fun ch => ch.series.map (fun s => (s.x, s.y))) =
      (buildFig2 d "quartile").map (fun ch => ch.series.map (fun s => (s.x, s.y)))) ∧
    (∀ q, (q = "quintile" ∨ q = "quartile") → ∀ ch, buildFig2 d q = Except.ok ch →
      ∃ dates diff, d.getCol? "Date" = some dates ∧
        d.getCol? "Difference between inflation rates of bottom and top quantiles" = some diff ∧
        ch.series.getLast? = some
          { name := "Difference between inflation rates<br>of bottom and top " ++ q ++ "s",
            x := dates, y := diff,
            hover := if q = "quintile" then fig2QuintHover else fig2QuartHover,
            dash := none, color := some "#000000" }) := by
  constructor
  · unfold buildFig2
    cases h1 : d.getColE "Date" with
    | error e => rfl
    | ok dates =>
      dsimp only
      cases h2 : d.getColE "Effect on inflation inequality" with
      | error e => rfl
      | ok eff =>
        dsimp only
        cases h3 : d.getColE "Consumption category" with
        | error e => rfl
        | ok cats =>
          dsimp only
          cases h4 : d.getColE "Difference between inflation rates of bottom and top quantiles" with
          | error e => simp [h4, Except.map]
          | ok diff => simp [h4, Except.map]
  · intro q hq ch hch
    unfold buildFig2 at hch
    cases h1 : d.getColE "Date" with
    | error e => rw [h1] at hch; exact Except.noConfusion hch
    | ok dates =>
      rw [h1] at hch
      dsimp only at hch
      cases h2 : d.getColE "Effect on inflation inequality" with
      | error e => rw [h2] at hch; exact Except.noConfusion hch
      | ok eff =>
        rw [h2] at hch
        dsimp only at hch
        cases h3 : d.getColE "Consumption category" with
        | error e => rw [h3] at hch; exact Except.noConfusion hch
        | ok cats =>
          rw [h3] at hch
          dsimp only at hch
          rcases hq with rfl | rfl
          · rw [if_pos rfl] at hch
            cases h4 : d.getColE "Difference between inflation rates of bottom and top quantiles" with
            | error e => rw [h4] at hch; exact Except.noConfusion hch
            | ok diff =>
              rw [h4] at hch
              dsimp only at hch
              injection hch with hh
              subst hh
              refine ⟨dates, diff, getColE_ok_getCol? h1, getColE_ok_getCol? h4, ?_⟩
              dsimp only
              rw [if_pos rfl]
              exact List.getLast?_concat _
          · rw [if_neg (by decide), if_pos rfl] at hch
            cases h4 : d.getColE "Difference between inflation rates of bottom and top quantiles" with
            | error e => rw [h4] at hch; exact Except.noConfusion hch
            | ok diff =>
              rw [h4] at hch
              dsimp only at hch
              injection hch with hh
              subst hh
              refine ⟨dates, diff, getColE_ok_getCol? h1, getColE_ok_getCol? h4, ?_⟩
              dsimp only
              rw [if_neg (by decide)]
              exact List.getLast?_concat _

/-- Witness for C10 at the concrete slice `exFig2slice`. -/
theorem c10_fig2_overlay_witness :
    ((buildFig2 exFig2slice "quintile").map (fun ch => ch.series.map (fun s => (s.x, s.y))) =
      (buildFig2 exFig2slice "quartile").map (fun ch => ch.series.map (fun s => (s.x, s.y)))) ∧
    (∃ ch, buildFig2 exFig2slice "quintile" = Except.ok ch ∧
      ∃ dates diff, exFig2slice.getCol? "Date" = some dates ∧
        exFig2slice.getCol? "Difference between inflation rates of bottom and top quantiles" =
          some diff ∧
        ch.series.getLast? = some
          { name := "Difference between inflation rates<br>of bottom and top quintiles",
            x := dates, y := diff, hover := fig2QuintHover,
            dash := none, color := some "#000000" }) := by
  refine ⟨(c10_fig2_overlay exFig2slice).1, ?_⟩
  cases hch : buildFig2 exFig2slice "quintile" with
  | error e =>
    have hok : exceptOk (buildFig2 exFig2slice "quintile") = true := rfl
    rw [hch] at hok
    simp [exceptOk] at hok
  | ok ch =>
    obtain ⟨dates, diff, hd1, hd2, hd3⟩ :=
      (c10_fig2_overlay exFig2slice).2 "quintile" (Or.inl rfl) ch hch
    exact ⟨ch, rfl, dates, diff, hd1, hd2, by simpa using hd3⟩

end InflationApp
